import Mathlib

/-!
Shallow embedding of the cozy-quarters prediction core
(`src/utils/prediction.ts`, `src/utils/api.ts`, and the page component
`handleFormSubmit`), with JavaScript numbers modelled as rationals,
`Math.round` as Mathlib's `round` (both round halves toward +∞), the
`Math.random()` draw as an explicit parameter, and the HTTP transport as an
explicit outcome value fed to each operation.
-/

namespace CozyQuarters

/-- Modelled from the spec: the `HouseData` interface is declared in
`src/data/modelData.ts`, which is not among the provided sources; its field
set and types are fixed by spec section 3 (HouseRecord) and by every use in
`predictPrice` and `predictPriceFromAPI`. Numeric fields are JS numbers,
modelled as rationals. -/
structure HouseData where
  squareFootage : ℚ
  bedrooms : ℚ
  bathrooms : ℚ
  yearBuilt : ℚ
  neighborhood : String
  lotSize : ℚ
  garage : ℚ
  basement : Bool
  centralAir : Bool
  kitchenQuality : ℚ

/-- The fixed `neighborhoodFactors` table of `predictPrice`
(`prediction.ts`): a record from neighborhood name to multiplier;
`none` models a key absent from the table. -/
def neighborhoodFactors (n : String) : Option ℚ :=
  if n = "Downtown" then some (120/100)
  else if n = "Suburban Heights" then some (110/100)
  else if n = "Riverside" then some (115/100)
  else if n = "West End" then some (95/100)
  else if n = "North Hills" then some (105/100)
  else if n = "Oak Park" then some (100/100)
  else if n = "Maplewood" then some (90/100)
  else if n = "Cedar Ridge" then some (110/100)
  else if n = "Brookside" then some (105/100)
  else if n = "Highland Park" then some (120/100)
  else none

/-- The lookup `neighborhoodFactors[data.neighborhood] || 1.0` from
`predictPrice`: an absent key falls back to `1.0`. (The JS `||` would also
replace a falsy stored value, but no table entry is `0`, so `getD` is
exact here.) -/
def neighborhoodFactor (n : String) : ℚ :=
  (neighborhoodFactors n).getD 1

/-- The line `const marketVariation = 0.95 + Math.random() * 0.1` of
`predictPrice`; `rand` stands for the `Math.random()` draw, which lies in
`[0, 1)`. -/
def marketVariation (rand : ℚ) : ℚ :=
  95/100 + rand * (10/100)

/-- The price computed by `predictPrice` (`prediction.ts`) before the final
`Math.round`: the linear subtotal, multiplied by the neighborhood factor,
then by the market-variation factor. -/
def preRoundPrice (data : HouseData) (rand : ℚ) : ℚ :=
  let BASE_PRICE : ℚ := 150000
  let PRICE_PER_SQFT : ℚ := 100
  let BEDROOM_VALUE : ℚ := 15000
  let BATHROOM_VALUE : ℚ := 20000
  let YEAR_MULTIPLIER : ℚ := 500
  let BASE_YEAR : ℚ := 1950
  let LOT_SIZE_VALUE : ℚ := 100000
  let GARAGE_VALUE : ℚ := 10000
  let BASEMENT_VALUE : ℚ := 20000
  let CENTRAL_AIR_VALUE : ℚ := 15000
  let KITCHEN_QUALITY_MULTIPLIER : ℚ := 10000
  let sqftValue := data.squareFootage * PRICE_PER_SQFT
  let bedroomValue := data.bedrooms * BEDROOM_VALUE
  let bathroomValue := data.bathrooms * BATHROOM_VALUE
  let yearValue := (data.yearBuilt - BASE_YEAR) * YEAR_MULTIPLIER
  let nf := neighborhoodFactor data.neighborhood
  let lotSizeValue := data.lotSize * LOT_SIZE_VALUE
  let garageValue := data.garage * GARAGE_VALUE
  let basementValue := if data.basement then BASEMENT_VALUE else 0
  let centralAirValue := if data.centralAir then CENTRAL_AIR_VALUE else 0
  let kitchenQualityValue := (data.kitchenQuality - 1) * KITCHEN_QUALITY_MULTIPLIER
  let predictedPrice := BASE_PRICE + sqftValue + bedroomValue + bathroomValue +
    yearValue + lotSizeValue + garageValue +
    basementValue + centralAirValue + kitchenQualityValue
  let predictedPrice := predictedPrice * nf
  let predictedPrice := predictedPrice * marketVariation rand
  predictedPrice

/-- Function `predictPrice` from `prediction.ts`: `Math.round` of the
accumulated price. `Math.round` rounds halves toward positive infinity,
exactly as Mathlib's `round`. -/
def predictPrice (data : HouseData) (rand : ℚ) : ℤ :=
  round (preRoundPrice data rand)

/-- The deterministic subtotal of `predictPrice`: every component except
the neighborhood factor and the market variation. -/
def subtotal (data : HouseData) : ℚ :=
  150000 + data.squareFootage * 100 + data.bedrooms * 15000 +
    data.bathrooms * 20000 + (data.yearBuilt - 1950) * 500 +
    data.lotSize * 100000 + data.garage * 10000 +
    (if data.basement then (20000 : ℚ) else 0) +
    (if data.centralAir then (15000 : ℚ) else 0) +
    (data.kitchenQuality - 1) * 10000

/-- The deterministic part of the price: subtotal times neighborhood
factor, the value `predictPrice` would round if the market variation were
pinned to `1.0`. -/
def detPrice (data : HouseData) : ℚ :=
  subtotal data * neighborhoodFactor data.neighborhood

theorem preRoundPrice_eq (data : HouseData) (rand : ℚ) :
    preRoundPrice data rand = detPrice data * marketVariation rand := by
  simp only [preRoundPrice, detPrice, subtotal]

/-- The example record of spec section 8. -/
def exampleHouse : HouseData :=
  { squareFootage := 2000, bedrooms := 3, bathrooms := 2, yearBuilt := 2000,
    neighborhood := "Oak Park", lotSize := 1/2, garage := 2,
    basement := true, centralAir := true, kitchenQuality := 3 }

theorem neighborhoodFactor_oakPark : neighborhoodFactor "Oak Park" = 1 := by
  simp [neighborhoodFactor, neighborhoodFactors]

/-- Every value the neighborhood-factor lookup can produce is at least
`0.9` (the smallest table entry, Maplewood) and at most `1.2`. -/
theorem neighborhoodFactor_bounds (n : String) :
    9/10 ≤ neighborhoodFactor n ∧ neighborhoodFactor n ≤ 12/10 := by
  unfold neighborhoodFactor neighborhoodFactors
  split_ifs <;> norm_num

/-- The ten keys of the `neighborhoodFactors` table. -/
def knownNeighborhoods : List String :=
  ["Downtown", "Suburban Heights", "Riverside", "West End", "North Hills",
   "Oak Park", "Maplewood", "Cedar Ridge", "Brookside", "Highland Park"]

/-- C1: with the market-variation factor pinned to `1.0` (the draw
`rand = 1/2` makes `0.95 + rand * 0.1 = 1`), `predictPrice` is the
deterministic closed form `round(subtotal * neighborhoodFactor)`, and on
the spec's example record it returns exactly `585000`. -/
theorem predictPrice_pinned_closed_form :
    marketVariation (1/2) = 1 ∧
    (∀ data : HouseData,
      predictPrice data (1/2) =
        round ((150000 + data.squareFootage * 100 + data.bedrooms * 15000 +
          data.bathrooms * 20000 + (data.yearBuilt - 1950) * 500 +
          data.lotSize * 100000 + data.garage * 10000 +
          (if data.basement then (20000 : ℚ) else 0) +
          (if data.centralAir then (15000 : ℚ) else 0) +
          (data.kitchenQuality - 1) * 10000) *
            neighborhoodFactor data.neighborhood)) ∧
    predictPrice exampleHouse (1/2) = 585000 := by
  have hmv : marketVariation (1/2) = 1 := by norm_num [marketVariation]
  refine ⟨hmv, fun data => ?_, ?_⟩
  · rw [predictPrice, preRoundPrice_eq, hmv, mul_one]
    simp only [detPrice, subtotal]
  · rw [predictPrice, preRoundPrice_eq, round_eq]
    norm_num [detPrice, subtotal, marketVariation, exampleHouse,
      neighborhoodFactor_oakPark]

/-- C6: for every valid record (positive squareFootage, bathrooms and
lotSize, bedrooms a positive integer, garage a non-negative integer,
yearBuilt in `[1900, current year]`, kitchenQuality an integer in `1..5`)
and every market-variation draw in `[0.95, 1.05]`, `predictPrice` returns
a non-negative integer. -/
theorem predictPrice_nonneg (data : HouseData) (rand : ℚ)
    (hsq : 0 < data.squareFootage)
    (hbed : ∃ n : ℕ, 0 < n ∧ data.bedrooms = n)
    (hbath : 0 < data.bathrooms)
    (hyb : 1900 ≤ data.yearBuilt) (hyb' : data.yearBuilt ≤ 2026)
    (hlot : 0 < data.lotSize)
    (hgar : ∃ g : ℕ, data.garage = g)
    (hkq : ∃ k : ℕ, 1 ≤ k ∧ k ≤ 5 ∧ data.kitchenQuality = k)
    (hmv : 95/100 ≤ marketVariation rand)
    (hmv' : marketVariation rand ≤ 105/100) :
    0 ≤ predictPrice data rand := by
  have hsub : (140000 : ℚ) ≤ subtotal data := by
    obtain ⟨n, hn, hbed⟩ := hbed
    obtain ⟨g, hg⟩ := hgar
    obtain ⟨k, hk1, _, hk⟩ := hkq
    have hn' : (1 : ℚ) ≤ data.bedrooms := by
      rw [hbed]; exact_mod_cast hn
    have hg' : (0 : ℚ) ≤ data.garage := by rw [hg]; positivity
    have hk' : (1 : ℚ) ≤ data.kitchenQuality := by
      rw [hk]; exact_mod_cast hk1
    unfold subtotal
    split_ifs <;> nlinarith
  have hnf := neighborhoodFactor_bounds data.neighborhood
  have hpos : (0 : ℚ) ≤ preRoundPrice data rand := by
    rw [preRoundPrice_eq, detPrice]
    have h1 : (0 : ℚ) < subtotal data := by linarith
    have h2 : (0 : ℚ) < neighborhoodFactor data.neighborhood := by linarith [hnf.1]
    have h3 : (0 : ℚ) < marketVariation rand := by linarith
    positivity
  rw [predictPrice, round_eq, Int.floor_nonneg]
  linarith

theorem predictPrice_nonneg_witness :
    0 ≤ predictPrice exampleHouse (1/2) :=
  predictPrice_nonneg exampleHouse (1/2)
    (by norm_num [exampleHouse])
    ⟨3, by norm_num [exampleHouse]⟩
    (by norm_num [exampleHouse])
    (by norm_num [exampleHouse]) (by norm_num [exampleHouse])
    (by norm_num [exampleHouse])
    ⟨2, by norm_num [exampleHouse]⟩
    ⟨3, by norm_num, by norm_num, by norm_num [exampleHouse]⟩
    (by norm_num [marketVariation]) (by norm_num [marketVariation])

/-- C7: holding the other fields, the neighborhood and the market draw
fixed, the pre-rounding price of `predictPrice` is linear in each of
squareFootage, bedrooms, bathrooms, yearBuilt, lotSize and garage:
a change of `d` in one field changes it by `d` times that field's
coefficient times the neighborhood factor times the market variation. -/
theorem preRoundPrice_linear (data : HouseData) (rand d : ℚ) :
    predictPrice data rand = round (preRoundPrice data rand) ∧
    preRoundPrice { data with squareFootage := data.squareFootage + d } rand -
        preRoundPrice data rand =
      d * 100 * neighborhoodFactor data.neighborhood * marketVariation rand ∧
    preRoundPrice { data with bedrooms := data.bedrooms + d } rand -
        preRoundPrice data rand =
      d * 15000 * neighborhoodFactor data.neighborhood * marketVariation rand ∧
    preRoundPrice { data with bathrooms := data.bathrooms + d } rand -
        preRoundPrice data rand =
      d * 20000 * neighborhoodFactor data.neighborhood * marketVariation rand ∧
    preRoundPrice { data with yearBuilt := data.yearBuilt + d } rand -
        preRoundPrice data rand =
      d * 500 * neighborhoodFactor data.neighborhood * marketVariation rand ∧
    preRoundPrice { data with lotSize := data.lotSize + d } rand -
        preRoundPrice data rand =
      d * 100000 * neighborhoodFactor data.neighborhood * marketVariation rand ∧
    preRoundPrice { data with garage := data.garage + d } rand -
        preRoundPrice data rand =
      d * 10000 * neighborhoodFactor data.neighborhood * marketVariation rand := by
  refine ⟨rfl, ?_, ?_, ?_, ?_, ?_, ?_⟩ <;>
    · simp only [preRoundPrice_eq, detPrice, subtotal]
      ring

/-- C8: the market-variation factor lies in `[0.95, 1.05]` for every
possible `Math.random()` draw, `predictPrice` is non-deterministic (two
draws on the same record give different results), and every result stays
within ±5% of the deterministic value `subtotal * neighborhoodFactor`,
up to rounding. -/
theorem marketVariation_band :
    (∀ r : ℚ, 0 ≤ r → r < 1 →
      95/100 ≤ marketVariation r ∧ marketVariation r ≤ 105/100) ∧
    predictPrice exampleHouse 0 ≠ predictPrice exampleHouse (1/2) ∧
    (∀ (data : HouseData) (r : ℚ), 0 ≤ r → r < 1 →
      |(predictPrice data r : ℚ) - detPrice data| ≤
        |detPrice data| * (5/100) + 1/2) := by
  refine ⟨fun r h0 h1 => ⟨?_, ?_⟩, ?_, fun data r h0 h1 => ?_⟩
  · unfold marketVariation; linarith
  · unfold marketVariation; linarith
  · have he0 : predictPrice exampleHouse 0 = 555750 := by
      rw [predictPrice, preRoundPrice_eq, round_eq]
      norm_num [detPrice, subtotal, marketVariation, exampleHouse,
        neighborhoodFactor_oakPark]
    have he1 : predictPrice exampleHouse (1/2) = 585000 := by
      rw [predictPrice, preRoundPrice_eq, round_eq]
      norm_num [detPrice, subtotal, marketVariation, exampleHouse,
        neighborhoodFactor_oakPark]
    rw [he0, he1]; decide
  · have hx : preRoundPrice data r = detPrice data * marketVariation r :=
      preRoundPrice_eq data r
    have habs : |(predictPrice data r : ℚ) - preRoundPrice data r| ≤ 1/2 := by
      rw [predictPrice, abs_sub_comm]
      exact abs_sub_round (preRoundPrice data r)
    have hmv : |marketVariation r - 1| ≤ 5/100 := by
      rw [abs_le]; unfold marketVariation; constructor <;> linarith
    have hnoise : |preRoundPrice data r - detPrice data| ≤
        |detPrice data| * (5/100) := by
      rw [hx]
      calc |detPrice data * marketVariation r - detPrice data|
          = |detPrice data| * |marketVariation r - 1| := by
            rw [← abs_mul]; ring_nf
        _ ≤ |detPrice data| * (5/100) := by
            exact mul_le_mul_of_nonneg_left hmv (abs_nonneg _)
    calc |(predictPrice data r : ℚ) - detPrice data|
        ≤ |(predictPrice data r : ℚ) - preRoundPrice data r| +
            |preRoundPrice data r - detPrice data| := abs_sub_le _ _ _
      _ ≤ 1/2 + |detPrice data| * (5/100) := by linarith
      _ = |detPrice data| * (5/100) + 1/2 := by ring

theorem marketVariation_band_witness :
    (95/100 ≤ marketVariation 0 ∧ marketVariation 0 ≤ 105/100) ∧
    |(predictPrice exampleHouse 0 : ℚ) - detPrice exampleHouse| ≤
      |detPrice exampleHouse| * (5/100) + 1/2 :=
  ⟨marketVariation_band.1 0 (by norm_num) (by norm_num),
   marketVariation_band.2.2 exampleHouse 0 (by norm_num) (by norm_num)⟩

/-- C9: a neighborhood string outside the ten table keys gets multiplier
`1.0`, so the prediction equals that of the same record in a known
factor-`1.0` neighborhood (Oak Park), for the same market draw. -/
theorem predictPrice_unknown_neighborhood (data : HouseData) (rand : ℚ)
    (h : data.neighborhood ∉ knownNeighborhoods) :
    neighborhoodFactor data.neighborhood = 1 ∧
    predictPrice data rand =
      predictPrice { data with neighborhood := "Oak Park" } rand := by
  simp only [knownNeighborhoods, List.mem_cons, List.not_mem_nil, or_false,
    not_or] at h
  obtain ⟨h1, h2, h3, h4, h5, h6, h7, h8, h9, h10⟩ := h
  have hnf : neighborhoodFactor data.neighborhood = 1 := by
    unfold neighborhoodFactor neighborhoodFactors
    simp [h1, h2, h3, h4, h5, h6, h7, h8, h9, h10]
  refine ⟨hnf, ?_⟩
  rw [predictPrice, predictPrice, preRoundPrice_eq, preRoundPrice_eq]
  simp only [detPrice, subtotal, hnf, neighborhoodFactor_oakPark]

theorem predictPrice_unknown_neighborhood_witness :
    "Atlantis" ∉ knownNeighborhoods ∧
    (neighborhoodFactor "Atlantis" = 1 ∧
      predictPrice { exampleHouse with neighborhood := "Atlantis" } (1/2) =
        predictPrice { { exampleHouse with neighborhood := "Atlantis" } with
          neighborhood := "Oak Park" } (1/2)) :=
  ⟨by decide,
   predictPrice_unknown_neighborhood
     { exampleHouse with neighborhood := "Atlantis" } (1/2) (by decide)⟩

/-! ### HTTP layer

The `fetch`-based operations are embedded by making the behaviour of the
underlying transport an explicit argument: either the `fetch` promise
rejects (a transport failure) or it resolves to a response whose `ok`
flag, `status`, `content-type` header and parsed JSON body are given.
JavaScript exceptions are modelled with the `Except` monad; an operation
whose source wraps its body in `try/catch` is the catch handler applied
to its separately defined throwing body. -/

/-- A parsed JavaScript value, as produced by `response.json()` or read
off a property access. -/
inductive JsValue where
  | undefined
  | null
  | bool (b : Bool)
  | num (q : ℚ)
  | str (s : String)
  | obj (fields : List (String × JsValue))

/-- A thrown JavaScript error. -/
inductive JsErr where
  /-- The `fetch` promise rejected: DNS failure, unreachable host,
  connection error. -/
  | transportFailure
  /-- A `TypeError` from reading a property of `null` or `undefined`. -/
  | typeError
  /-- A rejection of `response.json()` on a non-JSON or malformed body. -/
  | jsonParseError
  /-- An explicit `throw new Error(v)`; `v` is the value passed to the
  `Error` constructor. -/
  | thrown (v : JsValue)

/-- An HTTP response as the operations observe it: the `ok` flag
(status in the success range), the status code, the `content-type`
header (`none` when absent), and the JSON body — `none` when the body
does not parse, so that `response.json()` (and `JSON.parse` of the text)
rejects. -/
structure HttpResponse where
  ok : Bool
  status : Nat
  contentType : Option String
  body : Option JsValue

/-- The behaviour of one `fetch` call: rejection, or a response. -/
def FetchOutcome : Type := Except JsErr HttpResponse

/-- JS property access `v[key]`: throws `TypeError` on `null`/`undefined`,
yields the field of an object (or `undefined` when the key is missing),
and `undefined` on any other primitive. -/
def getFieldE (v : JsValue) (key : String) : Except JsErr JsValue :=
  match v with
  | .null => .error .typeError
  | .undefined => .error .typeError
  | .obj fields => .ok (lookupField fields key)
  | _ => .ok .undefined
where
  lookupField : List (String × JsValue) → String → JsValue
    | [], _ => .undefined
    | (k, v) :: rest, key => if k = key then v else lookupField rest key

/-- JS truthiness, as used by the `||` fallbacks on error messages. -/
def truthy : JsValue → Bool
  | .undefined => false
  | .null => false
  | .bool b => b
  | .num q => decide (q ≠ 0)
  | .str s => decide (s ≠ "")
  | .obj _ => true

/-- Whether `price === null`, the check `handleFormSubmit` performs. -/
def JsValue.isNull : JsValue → Bool
  | .null => true
  | _ => false

/-- The try-block of `checkModelStatus` (`prediction.ts`): GET the status
endpoint, throw on a non-ok status, and return the parsed JSON body
(`response.json()` rejects when the body is not JSON). -/
def checkModelStatusBody (fr : FetchOutcome) : Except JsErr JsValue := do
  let response ← fr
  if !response.ok then
    throw (.thrown (.str ("API status check failed with status " ++
      toString response.status)))
  match response.body with
  | none => throw .jsonParseError
  | some v => pure v

/-- The sentinel `{ trained: false, modelPath: null }` that
`checkModelStatus` returns from its catch handler. -/
def modelStatusFallback : JsValue :=
  .obj [("trained", .bool false), ("modelPath", .null)]

/-- Function `checkModelStatus` from `prediction.ts`: its try-block, with
every thrown error caught, logged, and replaced by the sentinel record. -/
def checkModelStatus (fr : FetchOutcome) : JsValue :=
  match checkModelStatusBody fr with
  | .ok v => v
  | .error _ => modelStatusFallback

/-- The try-block of `predictPriceFromAPI` (`prediction.ts`): POST the
record; on a non-ok status parse the error body (an unparseable body
falls back to `{}` via `.catch(() => ({}))`) and throw
`new Error(errorData.error || generic message)`; on an ok status return
`result.prediction` of the parsed body. -/
def predictPriceFromAPIBody (fr : FetchOutcome) : Except JsErr JsValue := do
  let response ← fr
  if !response.ok then
    let errorData : JsValue :=
      match response.body with
      | some v => v
      | none => .obj []
    let errField ← getFieldE errorData "error"
    throw (.thrown (if truthy errField then errField
      else .str ("API request failed with status " ++ toString response.status)))
  else
    match response.body with
    | none => throw .jsonParseError
    | some result => getFieldE result "prediction"

/-- Function `predictPriceFromAPI` from `prediction.ts`: its try-block,
with every thrown error caught, logged, and replaced by `null`. -/
def predictPriceFromAPI (fr : FetchOutcome) : JsValue :=
  match predictPriceFromAPIBody fr with
  | .ok v => v
  | .error _ => .null

/-- Function `checkAPIHealth` from `prediction.ts`: `response.ok` of the
status endpoint, `false` when the fetch itself throws. -/
def checkAPIHealth (fr : FetchOutcome) : Bool :=
  match fr with
  | .error _ => false
  | .ok response => response.ok

/-- Substring test backing `contentType?.includes('application/json')`:
splitting on a non-empty pattern yields more than one piece exactly when
the pattern occurs. -/
def strIncludes (s pat : String) : Bool :=
  decide ((s.splitOn pat).length ≠ 1)

/-- The optional-chained `contentType?.includes('application/json')` of
`fetchWithHandling`: `undefined` (falsy) when the header is absent. -/
def contentTypeIsJson : Option String → Bool
  | none => false
  | some ct => strIncludes ct "application/json"

/-- Rendering of the `content-type` header into the template string
`Invalid content type: ...`; a `null` header prints as `null`. -/
def contentTypeText : Option String → String
  | none => "null"
  | some ct => ct

/-- Function `fetchWithHandling` from `api.ts`. On a non-ok status it
parses the error text (falling back to
`{ message: "Non-JSON error response" }` when `JSON.parse` rejects) and
throws `new Error(errorData.message || generic message)`; on an ok status
it checks the `content-type` header and returns the parsed JSON body.
Its catch clause logs and RE-THROWS: `throw error; // Re-throw for
component-level handling`, so every failure propagates to the caller. -/
def fetchWithHandling (fr : FetchOutcome) : Except JsErr JsValue := do
  let response ← fr
  if !response.ok then
    let errorData : JsValue :=
      match response.body with
      | some v => v
      | none => .obj [("message", .str "Non-JSON error response")]
    let msgField ← getFieldE errorData "message"
    throw (.thrown (if truthy msgField then msgField
      else .str ("HTTP error! Status: " ++ toString response.status)))
  else
    if !contentTypeIsJson response.contentType then
      throw (.thrown (.str ("Invalid content type: " ++
        contentTypeText response.contentType)))
    else
      match response.body with
      | none => throw .jsonParseError
      | some result => pure result

/-! ### Fallback orchestration (`handleFormSubmit` in the Index page) -/

/-- What one submission produces: the displayed price, the source tag
(`'API'` for the remote model — the spec's source="remote" — and
`'fallback'` for the local estimate — the spec's source="local"), and how
many times `predictPriceFromAPI` was invoked. -/
structure SubmitOutcome where
  price : JsValue
  source : String
  remoteCalls : Nat

/-- Function `handleFormSubmit` from the Index page component:
`price` starts as `null`; when the backend model is available the remote
prediction is attempted (a thrown error is caught and logged, leaving
`price` null); whenever `price === null` afterwards, the local
`predictPrice` is used and tagged `'fallback'`. `isAvailable` is
`modelStatus.isAvailable`, which the page sets to `status.trained`;
`remote` is the outcome of the `predictPriceFromAPI` call; `rand` is the
market draw the local estimator would use. -/
def handleFormSubmit (isAvailable : Bool) (remote : Except JsErr JsValue)
    (data : HouseData) (rand : ℚ) : SubmitOutcome :=
  let price : JsValue := .null
  let source : String := ""
  let (price, source, remoteCalls) :=
    if isAvailable then
      match remote with
      | .ok v => (v, "API", 1)
      | .error _ => (price, source, 1)
    else (price, source, 0)
  if price.isNull then
    { price := .num (predictPrice data rand), source := "fallback",
      remoteCalls := remoteCalls }
  else
    { price := price, source := source, remoteCalls := remoteCalls }

/-! ### Price formatting -/

/-- A JS number as `formatPrice` receives it: `NaN` or a finite value. -/
inductive JSNumber where
  | nan
  | num (q : ℚ)

/-- Rounding to zero fraction digits as `Intl.NumberFormat` does it
(default rounding mode: half away from zero). -/
def intlRound (q : ℚ) : ℤ :=
  if 0 ≤ q then ⌊q + 1/2⌋ else -⌊-q + 1/2⌋

/-- Grouping of a reversed digit string into threes with commas. -/
def groupRev : List Char → List Char
  | a :: b :: c :: d :: rest => a :: b :: c :: ',' :: groupRev (d :: rest)
  | l => l

/-- A natural number with en-US thousands separators. -/
def withCommas (n : Nat) : String :=
  String.mk ((groupRev (Nat.repr n).toList.reverse).reverse)

/-- Model of `Intl.NumberFormat('en-US', currency USD, minimum and
maximum fraction digits 0).format`: round to an integer, group digits in
threes, prefix `$`, with the sign ahead of the `$`. -/
def intlFormatUSD (q : ℚ) : String :=
  let n := intlRound q
  if n < 0 then "-$" ++ withCommas n.natAbs else "$" ++ withCommas n.natAbs

/-- Function `formatPrice` from `prediction.ts`: `"$0"` for `NaN`
(after a console warning), otherwise the `Intl` currency formatting. -/
def formatPrice : JSNumber → String
  | .nan => "$0"
  | .num q => intlFormatUSD q

/-! ### Theorems about the HTTP layer and orchestration -/

/-- C5: `checkModelStatus` returns the sentinel
`{ trained: false, modelPath: null }` — and does not raise — whenever
anything throws during the status request (the fetch rejecting, a non-ok
status, a non-JSON body); on a successful request it returns the parsed
response body. -/
theorem checkModelStatus_spec (fr : FetchOutcome) :
    (∀ e, fr = .error e → checkModelStatus fr = modelStatusFallback) ∧
    (∀ resp, fr = .ok resp → resp.ok = false →
      checkModelStatus fr = modelStatusFallback) ∧
    (∀ resp, fr = .ok resp → resp.body = none →
      checkModelStatus fr = modelStatusFallback) ∧
    (∀ resp v, fr = .ok resp → resp.ok = true → resp.body = some v →
      checkModelStatus fr = v) := by
  refine ⟨?_, ?_, ?_, ?_⟩
  · rintro e rfl; rfl
  · rintro ⟨ok, status, ct, body⟩ rfl h
    subst h
    cases body <;> rfl
  · rintro ⟨ok, status, ct, body⟩ rfl h
    subst h
    cases ok <;> rfl
  · rintro ⟨ok, status, ct, body⟩ v rfl h hb
    subst h; subst hb; rfl

theorem checkModelStatus_spec_witness :
    checkModelStatus (.error .transportFailure) = modelStatusFallback :=
  (checkModelStatus_spec (.error .transportFailure)).1 .transportFailure rfl

/-- C4: `predictPriceFromAPI` returns `null` — without raising — whenever
the response status is outside the success range or anything throws (the
fetch rejecting, a malformed body); on success it returns the
`prediction` field of the parsed body, unvalidated. -/
theorem predictPriceFromAPI_spec (fr : FetchOutcome) :
    (∀ e, fr = .error e → predictPriceFromAPI fr = .null) ∧
    (∀ resp, fr = .ok resp → resp.ok = false →
      predictPriceFromAPI fr = .null) ∧
    (∀ resp, fr = .ok resp → resp.ok = true → resp.body = none →
      predictPriceFromAPI fr = .null) ∧
    (∀ resp fields, fr = .ok resp → resp.ok = true →
      resp.body = some (.obj fields) →
      predictPriceFromAPI fr = getFieldE.lookupField fields "prediction") := by
  refine ⟨?_, ?_, ?_, ?_⟩
  · rintro e rfl; rfl
  · rintro ⟨ok, status, ct, body⟩ rfl h
    subst h
    cases body with
    | none => rfl
    | some v => cases v <;> rfl
  · rintro ⟨ok, status, ct, body⟩ rfl h hb
    subst h; subst hb; rfl
  · rintro ⟨ok, status, ct, body⟩ fields rfl h hb
    subst h; subst hb; rfl

theorem predictPriceFromAPI_spec_witness :
    predictPriceFromAPI
        (.ok { ok := false, status := 500, contentType := none,
               body := none }) = .null ∧
    predictPriceFromAPI
        (.ok { ok := true, status := 200,
               contentType := some "application/json",
               body := some (.obj [("prediction", .num 700000)]) }) =
      .num 700000 :=
  ⟨(predictPriceFromAPI_spec _).2.1 _ rfl rfl,
   (predictPriceFromAPI_spec _).2.2.2 _ [("prediction", .num 700000)]
     rfl rfl rfl⟩

/-- C3 counterexample: the claim extends the never-raises contract to
`fetchWithHandling`, but `fetchWithHandling`'s catch clause re-throws
(`throw error; // Re-throw for component-level handling`): on a rejected
fetch the error propagates to the caller instead of becoming a sentinel
return value. -/
theorem fetchWithHandling_raises :
    fetchWithHandling (.error .transportFailure) =
      .error .transportFailure := rfl

/-- C3 (amended): for every behaviour of the transport, the public
operations `checkModelStatus`, `predictPriceFromAPI` and `checkAPIHealth`
raise nothing and express every failure as their sentinel return value
(`{ trained: false, modelPath: null }`, `null`, `false`);
`fetchWithHandling`, by contrast, re-throws every failure to its caller
for component-level handling. -/
theorem corePublicOps_sentinel (fr : FetchOutcome) :
    ((∃ e, fr = .error e) →
      checkModelStatus fr = modelStatusFallback ∧
      predictPriceFromAPI fr = .null ∧
      checkAPIHealth fr = false) ∧
    (∀ resp, fr = .ok resp →
      (resp.ok = false →
        checkModelStatus fr = modelStatusFallback ∧
        predictPriceFromAPI fr = .null) ∧
      (resp.ok = true → resp.body = none →
        checkModelStatus fr = modelStatusFallback ∧
        predictPriceFromAPI fr = .null) ∧
      checkAPIHealth fr = resp.ok) ∧
    (∀ e, fr = .error e → fetchWithHandling fr = .error e) ∧
    (∀ resp, fr = .ok resp → resp.ok = false →
      ∃ e, fetchWithHandling fr = .error e) := by
  refine ⟨?_, ?_, ?_, ?_⟩
  · rintro ⟨e, rfl⟩
    exact ⟨rfl, rfl, rfl⟩
  · rintro ⟨ok, status, ct, body⟩ rfl
    refine ⟨fun h => ?_, fun h hb => ?_, rfl⟩
    · subst h
      constructor
      · cases body <;> rfl
      · cases body with
        | none => rfl
        | some v => cases v <;> rfl
    · subst h; subst hb
      exact ⟨rfl, rfl⟩
  · rintro e rfl; rfl
  · rintro ⟨ok, status, ct, body⟩ rfl h
    subst h
    cases body with
    | none => exact ⟨_, rfl⟩
    | some v =>
      cases v with
      | null => exact ⟨.typeError, rfl⟩
      | undefined => exact ⟨.typeError, rfl⟩
      | bool b => exact ⟨_, rfl⟩
      | num q => exact ⟨_, rfl⟩
      | str s => exact ⟨_, rfl⟩
      | obj fields => exact ⟨_, rfl⟩

theorem corePublicOps_sentinel_witness :
    (checkModelStatus (.error .transportFailure) = modelStatusFallback ∧
      predictPriceFromAPI (.error .transportFailure) = .null ∧
      checkAPIHealth (.error .transportFailure) = false) ∧
    fetchWithHandling (.error .transportFailure) =
      .error .transportFailure :=
  ⟨(corePublicOps_sentinel (.error .transportFailure)).1
      ⟨.transportFailure, rfl⟩,
   (corePublicOps_sentinel (.error .transportFailure)).2.2.1
      .transportFailure rfl⟩

/-- C2: fallback orchestration of `handleFormSubmit`. When the model is
not trained the remote prediction is never invoked and the local estimate
is used with the local tag (the code string `'fallback'`, the spec's
source="local"); when it is trained and the remote call yields a non-null
number, that number is the result with the remote tag (`'API'`, the
spec's source="remote"); when it is trained but the remote call yields
null or throws, the local estimate is used; the two branches are
mutually exclusive on every call. -/
theorem handleFormSubmit_policy (trained : Bool)
    (remote : Except JsErr JsValue) (data : HouseData) (rand : ℚ) :
    (trained = false →
      (handleFormSubmit trained remote data rand).remoteCalls = 0 ∧
      (handleFormSubmit trained remote data rand).price =
        .num (predictPrice data rand) ∧
      (handleFormSubmit trained remote data rand).source = "fallback") ∧
    (∀ q : ℚ, trained = true → remote = .ok (.num q) →
      (handleFormSubmit trained remote data rand).price = .num q ∧
      (handleFormSubmit trained remote data rand).source = "API") ∧
    (trained = true → (remote = .ok .null ∨ ∃ e, remote = .error e) →
      (handleFormSubmit trained remote data rand).price =
        .num (predictPrice data rand) ∧
      (handleFormSubmit trained remote data rand).source = "fallback") ∧
    ((handleFormSubmit trained remote data rand).source = "API" ∨
      (handleFormSubmit trained remote data rand).source = "fallback") ∧
    ¬((handleFormSubmit trained remote data rand).source = "API" ∧
      (handleFormSubmit trained remote data rand).source = "fallback") := by
  refine ⟨?_, ?_, ?_, ?_, ?_⟩
  · rintro rfl
    exact ⟨rfl, rfl, rfl⟩
  · rintro q rfl rfl
    exact ⟨rfl, rfl⟩
  · rintro rfl (rfl | ⟨e, rfl⟩)
    · exact ⟨rfl, rfl⟩
    · exact ⟨rfl, rfl⟩
  · cases trained with
    | false => exact .inr rfl
    | true =>
      cases remote with
      | error e => exact .inr rfl
      | ok v =>
        cases hv : v.isNull with
        | true =>
          right
          unfold handleFormSubmit
          simp [hv]
        | false =>
          left
          unfold handleFormSubmit
          simp [hv]
  · rintro ⟨h1, h2⟩
    rw [h1] at h2
    exact absurd h2 (by decide)

theorem handleFormSubmit_policy_witness :
    ((handleFormSubmit false (.ok (.num 700000)) exampleHouse
        (1/2)).remoteCalls = 0 ∧
      (handleFormSubmit false (.ok (.num 700000)) exampleHouse
        (1/2)).price = .num (predictPrice exampleHouse (1/2)) ∧
      (handleFormSubmit false (.ok (.num 700000)) exampleHouse
        (1/2)).source = "fallback") ∧
    ((handleFormSubmit true (.ok (.num 700000)) exampleHouse
        (1/2)).price = .num 700000 ∧
      (handleFormSubmit true (.ok (.num 700000)) exampleHouse
        (1/2)).source = "API") :=
  ⟨(handleFormSubmit_policy false (.ok (.num 700000)) exampleHouse
      (1/2)).1 rfl,
   (handleFormSubmit_policy true (.ok (.num 700000)) exampleHouse
      (1/2)).2.1 700000 rfl rfl⟩

/-- C10: `formatPrice` maps every `NaN` input to the string `"$0"`
instead of raising or producing a malformed string, and every non-`NaN`
number to its en-US dollar formatting with zero fraction digits. -/
theorem formatPrice_spec :
    formatPrice .nan = "$0" ∧
    (∀ q : ℚ, formatPrice (.num q) = intlFormatUSD q) ∧
    formatPrice (.num 585000) = "$585,000" ∧
    formatPrice (.num (-2473/2)) = "-$1,237" := by
  refine ⟨rfl, fun q => rfl, ?_, ?_⟩
  · show intlFormatUSD 585000 = "$585,000"
    unfold intlFormatUSD
    have h : intlRound 585000 = 585000 := by
      unfold intlRound; rw [if_pos (by norm_num)]; norm_num
    rw [h]
    norm_num
    decide
  · show intlFormatUSD (-2473/2) = "-$1,237"
    unfold intlFormatUSD
    have h : intlRound (-2473/2) = -1237 := by
      unfold intlRound; rw [if_neg (by norm_num)]; norm_num
    rw [h]
    norm_num
    decide

end CozyQuarters
